import Mathlib

/-
  Verification development for the bgparse BGP/BMP wire-message decoder.

  The Rust sources are shallowly embedded: byte buffers are lists of
  naturals, machine integers are naturals with explicit big-endian
  arithmetic, and every operation that can hit a Rust panic or a failed
  assert is wrapped in Option, where the value none stands for a panic
  or abort of the process. The inner Except layer is the Result type of
  the library, carrying the two structural error kinds.
-/

namespace Bgparse

/-- The two structural error kinds of the library (src/types.rs). -/
inductive BgpError where
  | BadLength
  | Invalid
deriving DecidableEq, Repr

/-- Result type of the library over an error kind. -/
abbrev BgpResult (α : Type) := Except BgpError α

/-- A borrowed byte buffer. -/
abbrev Bytes := List Nat

/-- Indexing a Rust slice: bytes i. Out of range is a Rust panic (none). -/
def idx (b : Bytes) (i : Nat) : Option Nat := b.get? i

/-- Rust subslice b i.. ; panics when the start exceeds the length. -/
def sliceFrom (b : Bytes) (i : Nat) : Option Bytes :=
  if i ≤ b.length then some (b.drop i) else none

/-- Rust subslice b ..j ; panics when the end exceeds the length. -/
def sliceTo (b : Bytes) (j : Nat) : Option Bytes :=
  if j ≤ b.length then some (b.take j) else none

/-- Rust subslice b i..j ; panics unless i ≤ j ≤ length. -/
def rustSlice (b : Bytes) (i j : Nat) : Option Bytes :=
  if i ≤ j ∧ j ≤ b.length then some ((b.drop i).take (j - i)) else none

/-- A failed Rust assert aborts the process, modelled as none. -/
def rustAssert (c : Prop) [Decidable c] : Option Unit :=
  if c then some () else none

/-- Big-endian 16-bit read from two bytes. -/
def be16 (hi lo : Nat) : Nat := hi * 256 + lo

/-- Address family identifier newtype (src/types.rs). -/
structure Afi where
  val : Nat
deriving DecidableEq, Repr

/-- Subsequent address family identifier newtype (src/types.rs). -/
structure Safi where
  val : Nat
deriving DecidableEq, Repr

/-- The all-ones 16-byte BGP marker (src/types.rs, VALID_BGP_MARKER). -/
def validBgpMarker : Bytes := List.replicate 16 255

/-! ### Capabilities (src/bgp/open/capability/mod.rs) -/

/-- Tagged capability view; every variant borrows the whole TLV bytes. -/
inductive Capability where
  | MultiProtocol (inner : Bytes)
  | RouteRefresh (inner : Bytes)
  | Orf (inner : Bytes)
  | MultipleRoutes (inner : Bytes)
  | ExtendedNextHopEncoding (inner : Bytes)
  | GracefulRestart (inner : Bytes)
  | FourByteASN (inner : Bytes)
  | DynamicCapability (inner : Bytes)
  | MultiSession (inner : Bytes)
  | AddPath (inner : Bytes)
  | EnhancedRouteRefresh (inner : Bytes)
  | Private (inner : Bytes)
  | Other (inner : Bytes)
deriving DecidableEq, Repr

/-- Capability.from_bytes: length checks, then dispatch on the code byte
with fixed-length policies for codes 1, 65 and 69, private range 128 to
255, and a catch-all Other arm, mirroring the Rust match arm order. -/
def capabilityFromBytes (bytes : Bytes) : Option (BgpResult Capability) :=
  if bytes.length < 2 then some (.error .BadLength)
  else
    (idx bytes 0).bind fun c =>
    (idx bytes 1).bind fun l =>
    if bytes.length ≠ l + 2 then some (.error .BadLength)
    else if c = 0 then some (.error .Invalid)
    else if c = 1 then
      some (if l = 4 then .ok (.MultiProtocol bytes) else .error .Invalid)
    else if c = 2 then some (.ok (.RouteRefresh bytes))
    else if c = 3 then some (.ok (.Orf bytes))
    else if c = 4 then some (.ok (.MultipleRoutes bytes))
    else if c = 5 then some (.ok (.ExtendedNextHopEncoding bytes))
    else if c = 64 then some (.ok (.GracefulRestart bytes))
    else if c = 65 then
      some (if l = 4 then .ok (.FourByteASN bytes) else .error .Invalid)
    else if c = 67 then some (.ok (.DynamicCapability bytes))
    else if c = 68 then some (.ok (.MultiSession bytes))
    else if c = 69 then
      some (if l = 4 then .ok (.AddPath bytes) else .error .Invalid)
    else if c = 70 then some (.ok (.EnhancedRouteRefresh bytes))
    else if 128 ≤ c ∧ c ≤ 255 then some (.ok (.Private bytes))
    else some (.ok (.Other bytes))

/-! ### Notification (src/bgp/notification.rs) -/

/-- Tagged notification view; every variant carries the data bytes that
follow the two-byte code and subcode. -/
inductive Notification where
  | ConnectionNotSynchronised (data : Bytes)
  | BadMessageLength (data : Bytes)
  | BadMessageType (data : Bytes)
  | UnsupportedVersionNumber (data : Bytes)
  | BadPeerAs (data : Bytes)
  | BadBgpIdentifier (data : Bytes)
  | UnsupportedOptionalParameter (data : Bytes)
  | AuthenticationFailure (data : Bytes)
  | UnacceptableHoldTime (data : Bytes)
  | MalformedAttributeList (data : Bytes)
  | UnrecognizedWellKnownAttribute (data : Bytes)
  | MissingWellKnownAttribute (data : Bytes)
  | AttributeFlagsError (data : Bytes)
  | AttributeLengthError (data : Bytes)
  | InvalidOriginAttribute (data : Bytes)
  | AsRoutingLoop (data : Bytes)
  | InvalidNextHopAttribute (data : Bytes)
  | OptionalAttributeError (data : Bytes)
  | InvalidNetworkField (data : Bytes)
  | MalformedAsPath (data : Bytes)
  | HoldTimerExpired (data : Bytes)
  | FiniteStateMachineError (data : Bytes)
  | Cease (data : Bytes)
deriving DecidableEq, Repr

/-- The data payload carried by a notification variant. -/
def notificationData : Notification → Bytes
  | .ConnectionNotSynchronised d => d
  | .BadMessageLength d => d
  | .BadMessageType d => d
  | .UnsupportedVersionNumber d => d
  | .BadPeerAs d => d
  | .BadBgpIdentifier d => d
  | .UnsupportedOptionalParameter d => d
  | .AuthenticationFailure d => d
  | .UnacceptableHoldTime d => d
  | .MalformedAttributeList d => d
  | .UnrecognizedWellKnownAttribute d => d
  | .MissingWellKnownAttribute d => d
  | .AttributeFlagsError d => d
  | .AttributeLengthError d => d
  | .InvalidOriginAttribute d => d
  | .AsRoutingLoop d => d
  | .InvalidNextHopAttribute d => d
  | .OptionalAttributeError d => d
  | .InvalidNetworkField d => d
  | .MalformedAsPath d => d
  | .HoldTimerExpired d => d
  | .FiniteStateMachineError d => d
  | .Cease d => d

/-- Notification.from_bytes: at least two bytes, then dispatch on the
code and subcode pair; codes 4, 5 and 6 accept any subcode and every
pair outside the table is Invalid. -/
def notificationFromBytes (bytes : Bytes) : Option (BgpResult Notification) :=
  if bytes.length < 2 then some (.error .BadLength)
  else
    (idx bytes 0).bind fun c =>
    (idx bytes 1).bind fun s =>
    if c = 1 then
      if s = 1 then some (.ok (.ConnectionNotSynchronised (bytes.drop 2)))
      else if s = 2 then some (.ok (.BadMessageLength (bytes.drop 2)))
      else if s = 3 then some (.ok (.BadMessageType (bytes.drop 2)))
      else some (.error .Invalid)
    else if c = 2 then
      if s = 1 then some (.ok (.UnsupportedVersionNumber (bytes.drop 2)))
      else if s = 2 then some (.ok (.BadPeerAs (bytes.drop 2)))
      else if s = 3 then some (.ok (.BadBgpIdentifier (bytes.drop 2)))
      else if s = 4 then some (.ok (.UnsupportedOptionalParameter (bytes.drop 2)))
      else if s = 5 then some (.ok (.AuthenticationFailure (bytes.drop 2)))
      else if s = 6 then some (.ok (.UnacceptableHoldTime (bytes.drop 2)))
      else some (.error .Invalid)
    else if c = 3 then
      if s = 1 then some (.ok (.MalformedAttributeList (bytes.drop 2)))
      else if s = 2 then some (.ok (.UnrecognizedWellKnownAttribute (bytes.drop 2)))
      else if s = 3 then some (.ok (.MissingWellKnownAttribute (bytes.drop 2)))
      else if s = 4 then some (.ok (.AttributeFlagsError (bytes.drop 2)))
      else if s = 5 then some (.ok (.AttributeLengthError (bytes.drop 2)))
      else if s = 6 then some (.ok (.InvalidOriginAttribute (bytes.drop 2)))
      else if s = 7 then some (.ok (.AsRoutingLoop (bytes.drop 2)))
      else if s = 8 then some (.ok (.InvalidNextHopAttribute (bytes.drop 2)))
      else if s = 9 then some (.ok (.OptionalAttributeError (bytes.drop 2)))
      else if s = 10 then some (.ok (.InvalidNetworkField (bytes.drop 2)))
      else if s = 11 then some (.ok (.MalformedAsPath (bytes.drop 2)))
      else some (.error .Invalid)
    else if c = 4 then some (.ok (.HoldTimerExpired (bytes.drop 2)))
    else if c = 5 then some (.ok (.FiniteStateMachineError (bytes.drop 2)))
    else if c = 6 then some (.ok (.Cease (bytes.drop 2)))
    else some (.error .Invalid)

/-- The enumerated notification table: exactly the code and subcode
pairs the decoder recognises. -/
def notifTable (c s : Nat) : Prop :=
  (c = 1 ∧ 1 ≤ s ∧ s ≤ 3)
  ∨ (c = 2 ∧ 1 ≤ s ∧ s ≤ 6)
  ∨ (c = 3 ∧ 1 ≤ s ∧ s ≤ 11)
  ∨ c = 4 ∨ c = 5 ∨ c = 6

instance (c s : Nat) : Decidable (notifTable c s) := by
  unfold notifTable
  infer_instance

/-! ### Path attributes (src/bgp/update/path_attr/mod.rs) -/

/-- The extended-length flag bit of a path attribute. -/
def FLAG_EXT_LEN : Nat := 16

/-- MP_REACH_NLRI view, dispatched by the AFI and SAFI pair
(src/message/update/path_attr/mp_reach_nlri.rs); every variant borrows
the attribute value bytes. -/
inductive MpReach where
  | Ipv4Unicast (inner : Bytes)
  | Ipv4Multicast (inner : Bytes)
  | Ipv6Unicast (inner : Bytes)
  | Ipv6Multicast (inner : Bytes)
  | OtherReach (inner : Bytes)
deriving DecidableEq, Repr

/-- MpReachNlri.from_bytes: at least four bytes, skip the attribute
header (three or four bytes by the extended-length bit), read AFI and
SAFI from the value and dispatch. Reading the AFI and SAFI bytes panics
when the value is too short, as in the source. -/
def mpReachFromBytes (bytes : Bytes) : Option (BgpResult MpReach) :=
  if bytes.length < 4 then some (.error .BadLength)
  else
    (idx bytes 0).bind fun flags =>
    (if flags &&& FLAG_EXT_LEN > 0 then sliceFrom bytes 4 else sliceFrom bytes 3).bind
      fun value =>
    (idx value 0).bind fun v0 =>
    (idx value 1).bind fun v1 =>
    (idx value 2).bind fun v2 =>
    some (.ok
      (if be16 v0 v1 = 1 ∧ v2 = 1 then .Ipv4Unicast value
       else if be16 v0 v1 = 1 ∧ v2 = 2 then .Ipv4Multicast value
       else if be16 v0 v1 = 2 ∧ v2 = 1 then .Ipv6Unicast value
       else if be16 v0 v1 = 2 ∧ v2 = 2 then .Ipv6Multicast value
       else .OtherReach value))

/-- MP_UNREACH_NLRI view, dispatched by the AFI and SAFI pair. -/
inductive MpUnreach where
  | Ipv4Unicast (inner : Bytes)
  | Ipv4Multicast (inner : Bytes)
  | Ipv6Unicast (inner : Bytes)
  | Ipv6Multicast (inner : Bytes)
  | OtherUnreach (inner : Bytes)
deriving DecidableEq, Repr

/-- Modelled from the spec: the compiled revision of
MpUnreachNlri.from_bytes lives in src/bgp/update/path_attr/mp_reach_nlri.rs,
which is absent from the sources; per the spec the MP_UNREACH value is
AFI (2 bytes) then SAFI (1 byte) then withdrawn bytes, dispatched by the
AFI and SAFI pair like MP_REACH. -/
def mpUnreachFromBytes (bytes : Bytes) : Option (BgpResult MpUnreach) :=
  if bytes.length < 4 then some (.error .BadLength)
  else
    (idx bytes 0).bind fun flags =>
    (if flags &&& FLAG_EXT_LEN > 0 then sliceFrom bytes 4 else sliceFrom bytes 3).bind
      fun value =>
    (idx value 0).bind fun v0 =>
    (idx value 1).bind fun v1 =>
    (idx value 2).bind fun v2 =>
    some (.ok
      (if be16 v0 v1 = 1 ∧ v2 = 1 then .Ipv4Unicast value
       else if be16 v0 v1 = 1 ∧ v2 = 2 then .Ipv4Multicast value
       else if be16 v0 v1 = 2 ∧ v2 = 1 then .Ipv6Unicast value
       else if be16 v0 v1 = 2 ∧ v2 = 2 then .Ipv6Multicast value
       else .OtherUnreach value))

/-- Tagged path-attribute view; every plain variant borrows the whole
attribute bytes, header included. -/
inductive PathAttr where
  | Origin (inner : Bytes)
  | AsPath (inner : Bytes)
  | NextHop (inner : Bytes)
  | MultiExitDisc (inner : Bytes)
  | LocalPreference (inner : Bytes)
  | AtomicAggregate (inner : Bytes)
  | Aggregator (inner : Bytes)
  | Communities (inner : Bytes)
  | OriginatorId (inner : Bytes)
  | ClusterList (inner : Bytes)
  | MpReachNlri (r : MpReach)
  | MpUnreachNlri (r : MpUnreach)
  | ExtendedCommunities (inner : Bytes)
  | As4Path (inner : Bytes)
  | As4Aggregator (inner : Bytes)
  | PmsiTunnel (inner : Bytes)
  | TunnelEncapAttr (inner : Bytes)
  | TrafficEngineering (inner : Bytes)
  | Ipv6AddrSpecificExtCommunity (inner : Bytes)
  | Aigp (inner : Bytes)
  | PeDistinguisherLabels (inner : Bytes)
  | BgpLs (inner : Bytes)
  | AttrSet (inner : Bytes)
  | Other (inner : Bytes)
deriving DecidableEq, Repr

/-- The declared attribute length: one byte at offset 2, or a
big-endian pair at offsets 2 and 3 when the extended-length flag bit is
set; the reads panic on too-short buffers exactly as the source
indexing does. -/
def attrDeclaredLen (b : Bytes) : Option Nat :=
  (idx b 0).bind fun flags =>
  if flags &&& FLAG_EXT_LEN > 0 then
    (idx b 2).bind fun x =>
    (idx b 3).bind fun y =>
    some (be16 x y)
  else idx b 2

/-- The offset of the attribute value: four bytes of header with the
extended-length flag, three without. -/
def attrValueOffset (flags : Nat) : Nat :=
  if flags &&& FLAG_EXT_LEN > 0 then 4 else 3

/-- PathAttr.from_bytes of the compiled bgp revision: header length
checks, then one dispatch on the type code and declared length,
mirroring the Rust match arm order and its guards on the four-byte-ASN
session flag. -/
def pathAttrFromBytes (bytes : Bytes) (four_byte_asn : Bool) :
    Option (BgpResult PathAttr) :=
  if bytes.length < 3 then some (.error .BadLength)
  else
    (idx bytes 0).bind fun flags =>
    (idx bytes 1).bind fun aty =>
    if flags &&& FLAG_EXT_LEN > 0 ∧ bytes.length < 4 then some (.error .BadLength)
    else
      (attrDeclaredLen bytes).bind fun attrLen =>
      if aty = 0 then some (.error .Invalid)
      else if aty = 1 then
        some (if attrLen = 1 then .ok (.Origin bytes) else .error .Invalid)
      else if aty = 2 then
        some (if four_byte_asn = true then .ok (.As4Path bytes) else .ok (.AsPath bytes))
      else if aty = 3 then some (.ok (.NextHop bytes))
      else if aty = 4 then
        some (if attrLen = 4 then .ok (.MultiExitDisc bytes) else .error .Invalid)
      else if aty = 5 then
        some (if attrLen = 4 then .ok (.LocalPreference bytes) else .error .Invalid)
      else if aty = 6 then
        some (if attrLen = 0 then .ok (.AtomicAggregate bytes) else .error .Invalid)
      else if aty = 7 then
        some (if four_byte_asn = true ∧ attrLen = 8 then .ok (.As4Aggregator bytes)
              else if four_byte_asn = false ∧ attrLen = 6 then .ok (.Aggregator bytes)
              else .error .Invalid)
      else if aty = 8 then some (.ok (.Communities bytes))
      else if aty = 9 then
        some (if attrLen = 4 then .ok (.OriginatorId bytes) else .error .Invalid)
      else if aty = 10 then some (.ok (.ClusterList bytes))
      else if aty = 14 then
        (mpReachFromBytes bytes).bind fun r => some (r.map PathAttr.MpReachNlri)
      else if aty = 15 then
        (mpUnreachFromBytes bytes).bind fun r => some (r.map PathAttr.MpUnreachNlri)
      else if aty = 16 then some (.ok (.ExtendedCommunities bytes))
      else if aty = 17 then some (.ok (.As4Path bytes))
      else if aty = 18 then some (.ok (.As4Aggregator bytes))
      else if aty = 22 then some (.ok (.PmsiTunnel bytes))
      else if aty = 23 then some (.ok (.TunnelEncapAttr bytes))
      else if aty = 24 then some (.ok (.TrafficEngineering bytes))
      else if aty = 25 then some (.ok (.Ipv6AddrSpecificExtCommunity bytes))
      else if aty = 26 then some (.ok (.Aigp bytes))
      else if aty = 27 then some (.ok (.PeDistinguisherLabels bytes))
      else if aty = 29 then some (.ok (.BgpLs bytes))
      else if aty = 128 then some (.ok (.AttrSet bytes))
      else some (.ok (.Other bytes))

/-- State of PathAttrIter of the compiled bgp revision: residual bytes,
sticky error flag, session flag. -/
structure PathAttrIterSt where
  inner : Bytes
  error : Bool
  four_byte_asn : Bool
deriving DecidableEq, Repr

/-- One step of PathAttrIter.next. The outer Option is the panic layer;
the next layer is the iterator yield (none is end of sequence). Framing
errors set the sticky flag; the result of PathAttr.from_bytes is yielded
without touching the flag. -/
def pathAttrIterNext (s : PathAttrIterSt) :
    Option (Option (BgpResult PathAttr × PathAttrIterSt)) :=
  if s.error || s.inner.isEmpty then some none
  else if s.inner.length < 2 then
    some (some (.error .BadLength, { s with error := true }))
  else
    (idx s.inner 0).bind fun flags =>
    (attrDeclaredLen s.inner).bind fun attrLen =>
    if s.inner.length < attrValueOffset flags + attrLen then
      some (some (.error .BadLength, { s with error := true }))
    else
      (pathAttrFromBytes (s.inner.take (attrValueOffset flags + attrLen))
          s.four_byte_asn).bind fun r =>
      some (some (r, { s with inner := s.inner.drop (attrValueOffset flags + attrLen) }))

/-- An AS-path segment of the compiled bgp revision; the bytes are the
packed ASN list of the segment. -/
inductive AsPathSegment where
  | AsSet (inner : Bytes) (four_byte : Bool)
  | AsSequence (inner : Bytes) (four_byte : Bool)
deriving DecidableEq, Repr

/-- State of AsPathIter of the compiled bgp revision. -/
structure AsPathIterSt where
  inner : Bytes
  error : Bool
  four_byte : Bool
deriving DecidableEq, Repr

/-- The ASN width selected by the session flag. -/
def asnSize (four_byte : Bool) : Nat := if four_byte then 4 else 2

/-- One step of AsPathIter.next of the compiled bgp revision. The
source slices the segment body without any bounds check, so a truncated
segment is a panic (none), not an error yield. -/
def asPathIterNext (s : AsPathIterSt) :
    Option (Option (BgpResult AsPathSegment × AsPathIterSt)) :=
  if s.error || s.inner.isEmpty then some none
  else
    (idx s.inner 0).bind fun segTy =>
    if segTy = 1 then
      (idx s.inner 1).bind fun len =>
      (rustSlice s.inner 2 (len * asnSize s.four_byte + 2)).bind fun slice =>
      (sliceFrom s.inner (len * asnSize s.four_byte + 2)).bind fun rest =>
      some (some (.ok (.AsSet slice s.four_byte), { s with inner := rest }))
    else if segTy = 2 then
      (idx s.inner 1).bind fun len =>
      (rustSlice s.inner 2 (len * asnSize s.four_byte + 2)).bind fun slice =>
      (sliceFrom s.inner (len * asnSize s.four_byte + 2)).bind fun rest =>
      some (some (.ok (.AsSequence slice s.four_byte), { s with inner := rest }))
    else
      some (some (.error .Invalid, { s with error := true }))

/-- The Attr::value accessor: the bytes after the three or four byte
header, by the extended-length flag bit of the first byte. -/
def attrValue (b : Bytes) : Option Bytes :=
  (idx b 0).bind fun flags =>
  if flags &&& FLAG_EXT_LEN > 0 then sliceFrom b 4 else sliceFrom b 3

/-- State of CommunityIter: the packed four-byte community values. -/
structure CommunityIterSt where
  inner : Bytes
deriving DecidableEq, Repr

/-- Communities.communities of the compiled bgp revision: BadLength
when the value length is not a multiple of four, else the iterator over
the value bytes. -/
def communitiesAccessor (b : Bytes) : Option (BgpResult CommunityIterSt) :=
  (attrValue b).bind fun v =>
  if v.length % 4 > 0 then some (.error .BadLength)
  else some (.ok ⟨v⟩)

/-! ### MP_REACH NLRI iteration (src/message/update/path_attr/mp_reach_nlri.rs) -/

/-- State of the Ipv4NlriIter and Ipv6NlriIter generated by the
impl_reach_ip_nlri macro: residual bytes and a sticky error flag. The
two instantiations share one step function. -/
structure IpNlriIterSt where
  inner : Bytes
  error : Bool
deriving DecidableEq, Repr

/-- One step of Ipv4NlriIter.next and Ipv6NlriIter.next: read the mask
length byte, assert it is at most 128 (a failed assert aborts, modelled
as none), then take the prefix slice of (maskLen + 15) / 8 bytes with a
BadLength yield on truncation. -/
def ipNlriIterNext (s : IpNlriIterSt) :
    Option (Option (BgpResult Bytes × IpNlriIterSt)) :=
  if s.error || s.inner.isEmpty then some none
  else
    (idx s.inner 0).bind fun maskLen =>
    (rustAssert (maskLen ≤ 128)).bind fun _ =>
    if s.inner.length < (maskLen + 15) / 8 then
      some (some (.error .BadLength, { s with error := true }))
    else
      some (some (.ok (s.inner.take ((maskLen + 15) / 8)),
        { s with inner := s.inner.drop ((maskLen + 15) / 8) }))

/-! ### BMP (src/bmp/mod.rs) -/

/-- A decoded BMP statistics-report TLV. -/
inductive Statistic where
  | RejectedPrefixCount (v : Nat)
  | DuplicatePrefixAdvertisementCount (v : Nat)
  | DuplicatePrefixWithdrawCount (v : Nat)
  | ClusterListLoopInvalidationCount (v : Nat)
  | AsPathLoopInvalidationCount (v : Nat)
  | OriginatorIdInvalidationCount (v : Nat)
  | AsConfedInvalidationCount (v : Nat)
  | AdjRibsInSize (v : Nat)
  | LocRibSize (v : Nat)
  | PerAfiSafiAdjRibInSize (afi : Afi) (safi : Safi) (v : Nat)
  | PerAfiSafiLocRibSize (afi : Afi) (safi : Safi) (v : Nat)
  | UpdatesTreatedAsWithdraws (v : Nat)
  | PrefixesTreatedAsWithdraws (v : Nat)
  | DuplicateUpdateCount (v : Nat)
  | Unknown (inner : Bytes)
deriving DecidableEq, Repr

/-- Big-endian 32-bit read of the first four bytes of a slice; within
the recognised TLV arms the slice always has the required length. -/
def be32of (b : Bytes) : Nat :=
  b.getD 0 0 * 16777216 + b.getD 1 0 * 65536 + b.getD 2 0 * 256 + b.getD 3 0

/-- Big-endian 64-bit read of eight bytes of a slice starting at an
offset; within the recognised TLV arms the slice has the required
length. -/
def be64of (b : Bytes) (o : Nat) : Nat :=
  b.getD o 0 * 72057594037927936 + b.getD (o + 1) 0 * 281474976710656
  + b.getD (o + 2) 0 * 1099511627776 + b.getD (o + 3) 0 * 4294967296
  + b.getD (o + 4) 0 * 16777216 + b.getD (o + 5) 0 * 65536
  + b.getD (o + 6) 0 * 256 + b.getD (o + 7) 0

/-- The typed decode of one statistics TLV value by type and declared
length, mirroring the Rust match: recognised pairs produce typed
counters and gauges, anything else the Unknown variant over the raw
value slice. -/
def decodeStat (statType statLen : Nat) (slice : Bytes) : Statistic :=
  if statType = 0 ∧ statLen = 4 then .RejectedPrefixCount (be32of slice)
  else if statType = 1 ∧ statLen = 4 then .DuplicatePrefixAdvertisementCount (be32of slice)
  else if statType = 2 ∧ statLen = 4 then .DuplicatePrefixWithdrawCount (be32of slice)
  else if statType = 3 ∧ statLen = 4 then .ClusterListLoopInvalidationCount (be32of slice)
  else if statType = 4 ∧ statLen = 4 then .AsPathLoopInvalidationCount (be32of slice)
  else if statType = 5 ∧ statLen = 4 then .OriginatorIdInvalidationCount (be32of slice)
  else if statType = 6 ∧ statLen = 4 then .AsConfedInvalidationCount (be32of slice)
  else if statType = 7 ∧ statLen = 8 then .AdjRibsInSize (be64of slice 0)
  else if statType = 8 ∧ statLen = 8 then .LocRibSize (be64of slice 0)
  else if statType = 9 ∧ statLen = 11 then
    .PerAfiSafiAdjRibInSize ⟨be16 (slice.getD 0 0) (slice.getD 1 0)⟩ ⟨slice.getD 2 0⟩
      (be64of slice 3)
  else if statType = 10 ∧ statLen = 11 then
    .PerAfiSafiLocRibSize ⟨be16 (slice.getD 0 0) (slice.getD 1 0)⟩ ⟨slice.getD 2 0⟩
      (be64of slice 3)
  else if statType = 11 ∧ statLen = 4 then .UpdatesTreatedAsWithdraws (be32of slice)
  else if statType = 12 ∧ statLen = 4 then .PrefixesTreatedAsWithdraws (be32of slice)
  else if statType = 13 ∧ statLen = 4 then .DuplicateUpdateCount (be32of slice)
  else .Unknown slice

/-- The type and length pairs of the recognised statistics TLVs. -/
def recognizedStat (statType statLen : Nat) : Prop :=
  (statType ≤ 6 ∧ statLen = 4)
  ∨ ((statType = 7 ∨ statType = 8) ∧ statLen = 8)
  ∨ ((statType = 9 ∨ statType = 10) ∧ statLen = 11)
  ∨ ((statType = 11 ∨ statType = 12 ∨ statType = 13) ∧ statLen = 4)

instance (t l : Nat) : Decidable (recognizedStat t l) := by
  unfold recognizedStat
  infer_instance

/-- State of StatisticsIter: residual TLV bytes and a sticky error
flag. -/
structure StatisticsIterSt where
  inner : Bytes
  error : Bool
deriving DecidableEq, Repr

/-- One step of StatisticsIter.next. After the two-byte check the
source reads the length bytes at offsets 2 and 3 unchecked, so a two or
three byte remainder is a panic (none); a remainder shorter than the
declared length plus four yields BadLength and sets the flag; otherwise
the TLV decodes by decodeStat and the flag is untouched. -/
def statisticsIterNext (s : StatisticsIterSt) :
    Option (Option (BgpResult Statistic × StatisticsIterSt)) :=
  if s.inner.isEmpty || s.error then some none
  else if s.inner.length < 2 then
    some (some (.error .BadLength, { s with error := true }))
  else
    (idx s.inner 0).bind fun t0 =>
    (idx s.inner 1).bind fun t1 =>
    (idx s.inner 2).bind fun l0 =>
    (idx s.inner 3).bind fun l1 =>
    if s.inner.length < be16 l0 l1 + 4 then
      some (some (.error .BadLength, { s with error := true }))
    else
      some (some (.ok (decodeStat (be16 t0 t1) (be16 l0 l1)
          ((s.inner.drop 4).take (be16 l0 l1))),
        { s with inner := s.inner.drop (be16 l0 l1 + 4) }))

/-- The StatisticsReport view over a whole BMP message buffer. -/
structure StatisticsReport where
  inner : Bytes
deriving DecidableEq, Repr

/-- StatisticsReport.stats_count: the big-endian 32-bit stat count at
offset 48; slicing panics when the buffer is shorter. -/
def statsCount (r : StatisticsReport) : Option Nat :=
  (sliceFrom r.inner 48).bind fun s =>
  (idx s 0).bind fun a =>
  (idx s 1).bind fun b =>
  (idx s 2).bind fun c =>
  (idx s 3).bind fun d =>
  some (a * 16777216 + b * 65536 + c * 256 + d)

/-- StatisticsReport.stats: the TLV iterator over the bytes from offset
52, never consulting the stat count. -/
def stats (r : StatisticsReport) : Option StatisticsIterSt :=
  (sliceFrom r.inner 52).bind fun s =>
  some ⟨s, false⟩

/-- Typed BMP message views (each borrows the whole buffer). -/
inductive Bmp where
  | RouteMonitoring (inner : Bytes)
  | StatisticsReportMsg (r : StatisticsReport)
  | PeerDownNotification (inner : Bytes)
  | PeerUpNotification (inner : Bytes)
  | Initiation (inner : Bytes)
  | Termination (inner : Bytes)
  | RouteMirroring (inner : Bytes)
deriving DecidableEq, Repr

/-- Bmp.from_bytes: at least six bytes, version byte 3, the four-byte
big-endian declared length must equal the buffer length, then dispatch
on the type byte. -/
def bmpFromBytes (bytes : Bytes) : Option (BgpResult Bmp) :=
  if bytes.length < 6 then some (.error .BadLength)
  else
    (idx bytes 0).bind fun version =>
    if version ≠ 3 then some (.error .Invalid)
    else
      (idx bytes 1).bind fun b1 =>
      (idx bytes 2).bind fun b2 =>
      (idx bytes 3).bind fun b3 =>
      (idx bytes 4).bind fun b4 =>
      if bytes.length ≠ b1 * 16777216 + b2 * 65536 + b3 * 256 + b4 then
        some (.error .BadLength)
      else
        (idx bytes 5).bind fun bmpType =>
        if bmpType = 0 then some (.ok (.RouteMonitoring bytes))
        else if bmpType = 1 then some (.ok (.StatisticsReportMsg ⟨bytes⟩))
        else if bmpType = 2 then some (.ok (.PeerDownNotification bytes))
        else if bmpType = 3 then some (.ok (.PeerUpNotification bytes))
        else if bmpType = 4 then some (.ok (.Initiation bytes))
        else if bmpType = 5 then some (.ok (.Termination bytes))
        else if bmpType = 6 then some (.ok (.RouteMirroring bytes))
        else some (.error .Invalid)

/-! ### UPDATE and message framing (src/message/update/mod.rs and
src/message/mod.rs) -/

/-- The Update view: whole message bytes plus the two session flags. -/
structure UpdateView where
  inner : Bytes
  four_byte_asn : Bool
  add_paths : Bool
deriving DecidableEq, Repr

/-- Update.from_bytes: the only check is that the whole message is at
least 19 + 4 bytes long; the declared inner lengths are not examined. -/
def updateFromBytes (raw : Bytes) (four_byte_asn add_paths : Bool) :
    BgpResult UpdateView :=
  if raw.length < 19 + 4 then .error .BadLength
  else .ok ⟨raw, four_byte_asn, add_paths⟩

/-- Update.value: the bytes after the 19-byte envelope header. -/
def updateValue (u : UpdateView) : Option Bytes :=
  sliceFrom u.inner 19

/-- Update.withdrawn_routes_len: big-endian pair at the start of the
body. -/
def withdrawnRoutesLen (u : UpdateView) : Option Nat :=
  (updateValue u).bind fun v =>
  (idx v 0).bind fun a =>
  (idx v 1).bind fun b =>
  some (be16 a b)

/-- Update.total_path_attr_len: big-endian pair right after the
withdrawn-routes bytes. -/
def totalPathAttrLen (u : UpdateView) : Option Nat :=
  (updateValue u).bind fun v =>
  (withdrawnRoutesLen u).bind fun w =>
  (idx v (w + 2)).bind fun a =>
  (idx v (w + 3)).bind fun b =>
  some (be16 a b)

/-- State of the WithdrawnRoutes iterator of the message revision. -/
structure WithdrawnRoutesSt where
  inner : Bytes
  error : Option BgpError
deriving DecidableEq, Repr

/-- State of the PathAttrIter of the message revision, as produced by
Update.path_attrs. -/
structure MsgPathAttrIterSt where
  inner : Bytes
  error : Option BgpError
  four_byte_asn : Bool
deriving DecidableEq, Repr

/-- State of the NlriIter of the message revision, as produced by
Update.nlris. -/
structure MsgNlriIterSt where
  inner : Bytes
  add_paths : Bool
  error : Option BgpError
deriving DecidableEq, Repr

/-- Update.withdrawn_routes: slices the declared withdrawn-routes range
out of the body; an over-declared length panics. -/
def updateWithdrawnRoutes (u : UpdateView) : Option WithdrawnRoutesSt :=
  (updateValue u).bind fun v =>
  (withdrawnRoutesLen u).bind fun w =>
  (sliceFrom v 2).bind fun s1 =>
  (sliceTo s1 w).bind fun s2 =>
  some ⟨s2, none⟩

/-- Update.path_attrs: slices the declared path-attribute range out of
the body; an over-declared length panics. -/
def updatePathAttrs (u : UpdateView) : Option MsgPathAttrIterSt :=
  (updateValue u).bind fun v =>
  (withdrawnRoutesLen u).bind fun w =>
  (totalPathAttrLen u).bind fun t =>
  (sliceFrom v (4 + w)).bind fun s1 =>
  (sliceTo s1 t).bind fun s2 =>
  some ⟨s2, none, u.four_byte_asn⟩

/-- Update.nlris: the rest of the body after both declared ranges. -/
def updateNlris (u : UpdateView) : Option MsgNlriIterSt :=
  (updateValue u).bind fun v =>
  (withdrawnRoutesLen u).bind fun w =>
  (totalPathAttrLen u).bind fun t =>
  (sliceFrom v (4 + w + t)).bind fun s1 =>
  some ⟨s1, u.add_paths, none⟩

/-- The Open view over a whole message buffer. -/
structure OpenView where
  inner : Bytes
deriving DecidableEq, Repr

/-- Open.new: at least ten bytes. -/
def openFromBytes (raw : Bytes) : BgpResult OpenView :=
  if raw.length < 10 then .error .BadLength else .ok ⟨raw⟩

/-- Typed BGP message views. -/
inductive Message where
  | openMessage (o : OpenView)
  | updateMessage (u : UpdateView)
  | notificationMessage
  | keepAlive
  | refresh
deriving DecidableEq, Repr

/-- Message.from_bytes: buffer length between 19 and 4096, all-ones
marker, declared big-endian length at offsets 16 and 17 equal to the
buffer length, then dispatch on the type byte at offset 18; the session
flags are threaded into the Update constructor. -/
def messageFromBytes (raw : Bytes) (four_byte_asn add_paths : Bool) :
    Option (BgpResult Message) :=
  if raw.length < 19 ∨ raw.length > 4096 then some (.error .BadLength)
  else if raw.take 16 ≠ validBgpMarker then some (.error .Invalid)
  else
    (idx (raw.drop 16) 0).bind fun m0 =>
    (idx (raw.drop 16) 1).bind fun m1 =>
    (idx (raw.drop 16) 2).bind fun m2 =>
    if be16 m0 m1 ≠ raw.length then some (.error .BadLength)
    else if m2 = 1 then some ((openFromBytes raw).map Message.openMessage)
    else if m2 = 2 then
      some ((updateFromBytes raw four_byte_asn add_paths).map Message.updateMessage)
    else if m2 = 3 then some (.ok .notificationMessage)
    else if m2 = 4 then some (.ok .keepAlive)
    else if m2 = 5 then some (.ok .refresh)
    else some (.error .Invalid)

/-! ### Helper lemmas -/

theorem idx_drop (b : Bytes) (n i : Nat) : idx (b.drop n) i = idx b (n + i) := by
  simp [idx, List.get?_drop]

theorem idx_some_lt {b : Bytes} {i v : Nat} (h : idx b i = some v) : i < b.length := by
  by_contra hc
  push_neg at hc
  rw [idx, List.get?_eq_none.mpr hc] at h
  exact Option.noConfusion h

theorem idx_exists {b : Bytes} {i : Nat} (h : i < b.length) : ∃ v, idx b i = some v :=
  ⟨b.get ⟨i, h⟩, by simp [idx, List.get?_eq_get h]⟩

theorem isEmpty_false_of_lt {b : Bytes} {n : Nat} (h : n < b.length) : b.isEmpty = false := by
  cases b with
  | nil => simp at h
  | cons x xs => rfl

/-! ### Claim theorems -/

/-- Claim C1. The claim says every decode operation and iterator step
completes without panicking or aborting, surfacing problems only as
BadLength or Invalid. The code violates this: this theorem evaluates
four iterator steps of the source on concrete malformed inputs and each
one panics (none): AsPathIter slices a truncated segment body out of
bounds, PathAttrIter and StatisticsIter read the length bytes past the
end of a two-byte remainder, and the MP_REACH NLRI iterator aborts on a
failed assert for a mask length over 128. -/
theorem claim_C1 :
    asPathIterNext ⟨[2, 5], false, false⟩ = none
    ∧ pathAttrIterNext ⟨[64, 1], false, false⟩ = none
    ∧ statisticsIterNext ⟨[0, 9], false⟩ = none
    ∧ ipNlriIterNext ⟨[129], false⟩ = none := by
  refine ⟨rfl, rfl, rfl, rfl⟩

/-- A well-framed 23-byte UPDATE message whose declared withdrawn-routes
length 65535 exceeds the four remaining body bytes. -/
def c3Input : Bytes := List.replicate 16 255 ++ [0, 23, 2, 255, 255, 0, 0]

/-- Claim C3. The claim says UPDATE construction fails with BadLength
whenever a declared inner length is inconsistent with the message, so
the accessors of a constructed view are well-defined. The code violates
this: on a framed UPDATE whose withdrawn-routes length field is 65535,
framing and Update.from_bytes both succeed, yet the withdrawn_routes
accessor slices past the end of the buffer and panics (none). -/
theorem claim_C3 :
    updateFromBytes c3Input true true = .ok ⟨c3Input, true, true⟩
    ∧ messageFromBytes c3Input true true
        = some (.ok (.updateMessage ⟨c3Input, true, true⟩))
    ∧ withdrawnRoutesLen ⟨c3Input, true, true⟩ = some 65535
    ∧ updateWithdrawnRoutes ⟨c3Input, true, true⟩ = none := by
  refine ⟨rfl, rfl, rfl, rfl⟩

/-- Claim C4 counterexample. The claim says the first error yielded by
a sequence is its final yield, including an Invalid produced while
classifying an individual path attribute. On the concrete attribute
bytes below, PathAttrIter yields an Invalid for a reserved type-zero
attribute without entering the terminal-error state, and the following
step yields a further element, an Origin attribute. -/
theorem claim_C4_counterexample :
    pathAttrIterNext ⟨[64, 0, 0, 64, 1, 1, 0], false, false⟩
      = some (some (.error .Invalid, ⟨[64, 1, 1, 0], false, false⟩))
    ∧ pathAttrIterNext ⟨[64, 1, 1, 0], false, false⟩
      = some (some (.ok (.Origin [64, 1, 1, 0]), ⟨[], false, false⟩)) := by
  refine ⟨rfl, rfl⟩

/-- Claim C4 as amended. Errors detected by the step logic of an
iterator itself are final: a framing BadLength of PathAttrIter and the
unknown-segment-type Invalid of AsPathIter set the sticky flag, and a
flagged iterator always yields end-of-sequence. An error produced by
PathAttr.from_bytes while classifying an individual attribute is
yielded without setting the flag, and iteration continues with the next
attribute. -/
theorem claim_C4 :
    (∀ s : PathAttrIterSt, s.error = true → pathAttrIterNext s = some none)
    ∧ (∀ s : PathAttrIterSt, s.error = false → s.inner ≠ [] → s.inner.length < 2 →
        pathAttrIterNext s = some (some (.error .BadLength, { s with error := true })))
    ∧ (∀ (s : PathAttrIterSt) (flags aLen : Nat), s.error = false →
        idx s.inner 0 = some flags → attrDeclaredLen s.inner = some aLen →
        2 ≤ s.inner.length → s.inner.length < attrValueOffset flags + aLen →
        pathAttrIterNext s = some (some (.error .BadLength, { s with error := true })))
    ∧ (∀ (s : PathAttrIterSt) (flags aLen : Nat) (r : BgpResult PathAttr),
        s.error = false →
        idx s.inner 0 = some flags → attrDeclaredLen s.inner = some aLen →
        2 ≤ s.inner.length → attrValueOffset flags + aLen ≤ s.inner.length →
        pathAttrFromBytes (s.inner.take (attrValueOffset flags + aLen)) s.four_byte_asn
          = some r →
        pathAttrIterNext s
          = some (some (r, { s with inner := s.inner.drop (attrValueOffset flags + aLen) })))
    ∧ (∀ s : AsPathIterSt, s.error = true → asPathIterNext s = some none)
    ∧ (∀ (s : AsPathIterSt) (t : Nat), s.error = false → idx s.inner 0 = some t →
        t ≠ 1 → t ≠ 2 →
        asPathIterNext s = some (some (.error .Invalid, { s with error := true }))) := by
  refine ⟨?_, ?_, ?_, ?_, ?_, ?_⟩
  · intro s h
    simp [pathAttrIterNext, h]
  · intro s herr hne hlt
    unfold pathAttrIterNext
    rw [herr]
    simp only [Bool.false_or]
    rw [if_neg (by simp [List.isEmpty_iff, hne]), if_pos hlt]
  · intro s flags aLen herr h0 hal h2 hlt
    unfold pathAttrIterNext
    rw [herr]
    simp only [Bool.false_or]
    rw [if_neg (by simp [isEmpty_false_of_lt (idx_some_lt h0)]), if_neg (by omega)]
    simp only [h0, hal, Option.some_bind]
    rw [if_pos hlt]
  · intro s flags aLen r herr h0 hal h2 hle hfb
    unfold pathAttrIterNext
    rw [herr]
    simp only [Bool.false_or]
    rw [if_neg (by simp [isEmpty_false_of_lt (idx_some_lt h0)]), if_neg (by omega)]
    simp only [h0, hal, Option.some_bind]
    rw [if_neg (by omega)]
    simp only [hfb, Option.some_bind]
  · intro s h
    simp [asPathIterNext, h]
  · intro s t herr h0 h1 h2
    unfold asPathIterNext
    rw [herr]
    simp only [Bool.false_or]
    rw [if_neg (by simp [isEmpty_false_of_lt (idx_some_lt h0)])]
    simp only [h0, Option.some_bind]
    rw [if_neg h1, if_neg h2]

/-- Concrete instances discharging the hypotheses of the amended claim
C4 theorem. -/
theorem claim_C4_witness :
    pathAttrIterNext ⟨[64, 1, 1, 0], true, false⟩ = some none
    ∧ pathAttrIterNext ⟨[64], false, false⟩
        = some (some (.error .BadLength, ⟨[64], true, false⟩))
    ∧ pathAttrIterNext ⟨[64, 1, 9, 0], false, false⟩
        = some (some (.error .BadLength, ⟨[64, 1, 9, 0], true, false⟩))
    ∧ asPathIterNext ⟨[7, 0], false, true⟩
        = some (some (.error .Invalid, ⟨[7, 0], true, true⟩)) := by
  refine ⟨?_, ?_, ?_, ?_⟩
  · exact claim_C4.1 ⟨[64, 1, 1, 0], true, false⟩ rfl
  · exact claim_C4.2.1 ⟨[64], false, false⟩ rfl (by decide) (by decide)
  · exact claim_C4.2.2.1 ⟨[64, 1, 9, 0], false, false⟩ 64 9 rfl rfl rfl
      (by decide) (by decide)
  · exact claim_C4.2.2.2.2.2 ⟨[7, 0], false, true⟩ 7 rfl rfl (by decide) (by decide)

/-- Claim C5. For a framed single path attribute, the four-byte-ASN
session flag chooses the variant at type code 2 (As4Path when set,
AsPath when clear) and at type code 7 (As4Aggregator at length 8 when
set, Aggregator at length 6 when clear, Invalid at any other length),
and type code 17 is As4Path regardless of the flag. -/
theorem claim_C5 (bytes : Bytes) (flags aLen : Nat)
    (h0 : idx bytes 0 = some flags) (h3 : 3 ≤ bytes.length)
    (hext : flags &&& FLAG_EXT_LEN > 0 → 4 ≤ bytes.length)
    (hlen : attrDeclaredLen bytes = some aLen) :
    (idx bytes 1 = some 2 →
      pathAttrFromBytes bytes true = some (.ok (.As4Path bytes))
      ∧ pathAttrFromBytes bytes false = some (.ok (.AsPath bytes)))
    ∧ (idx bytes 1 = some 7 →
      pathAttrFromBytes bytes true
        = some (if aLen = 8 then .ok (.As4Aggregator bytes) else .error .Invalid)
      ∧ pathAttrFromBytes bytes false
        = some (if aLen = 6 then .ok (.Aggregator bytes) else .error .Invalid))
    ∧ (∀ four : Bool, idx bytes 1 = some 17 →
      pathAttrFromBytes bytes four = some (.ok (.As4Path bytes))) := by
  refine ⟨?_, ?_, ?_⟩
  · intro h1
    constructor <;>
    · unfold pathAttrFromBytes
      rw [if_neg (by omega)]
      simp only [h0, h1, Option.some_bind]
      rw [if_neg (by push_neg; intro hb; have := hext hb; omega)]
      simp only [hlen, Option.some_bind]
      norm_num
  · intro h1
    constructor <;>
    · unfold pathAttrFromBytes
      rw [if_neg (by omega)]
      simp only [h0, h1, Option.some_bind]
      rw [if_neg (by push_neg; intro hb; have := hext hb; omega)]
      simp only [hlen, Option.some_bind]
      norm_num
  · intro four h1
    unfold pathAttrFromBytes
    rw [if_neg (by omega)]
    simp only [h0, h1, Option.some_bind]
    rw [if_neg (by push_neg; intro hb; have := hext hb; omega)]
    simp only [hlen, Option.some_bind]
    norm_num

/-- Concrete instances discharging the hypotheses of the claim C5
theorem: type code 2 under both flag values, type code 7 at lengths 8
and 6, type code 17 under the cleared flag. -/
theorem claim_C5_witness :
    pathAttrFromBytes [64, 2, 0] true = some (.ok (.As4Path [64, 2, 0]))
    ∧ pathAttrFromBytes [64, 2, 0] false = some (.ok (.AsPath [64, 2, 0]))
    ∧ pathAttrFromBytes [192, 7, 8, 0, 0, 0, 1, 1, 1, 1, 1] true
        = some (.ok (.As4Aggregator [192, 7, 8, 0, 0, 0, 1, 1, 1, 1, 1]))
    ∧ pathAttrFromBytes [192, 7, 8, 0, 0, 0, 1, 1, 1, 1, 1] false
        = some (.error .Invalid)
    ∧ pathAttrFromBytes [192, 17, 0] false = some (.ok (.As4Path [192, 17, 0])) := by
  have h2 := (claim_C5 [64, 2, 0] 64 0 rfl (by decide) (by decide) rfl).1 rfl
  have h7 := (claim_C5 [192, 7, 8, 0, 0, 0, 1, 1, 1, 1, 1] 192 8 rfl (by decide)
    (by decide) rfl).2.1 rfl
  have h17 := (claim_C5 [192, 17, 0] 192 0 rfl (by decide) (by decide) rfl).2.2 false rfl
  refine ⟨h2.1, h2.2, ?_, ?_, h17⟩
  · simpa using h7.1
  · simpa using h7.2

/-- Claim C6 counterexample. The claim says a Communities attribute
whose declared length is not a multiple of four fails to decode with
Invalid. On the concrete attribute below with declared length 2, the
decode succeeds and returns the Communities variant. -/
theorem claim_C6_counterexample :
    pathAttrFromBytes [192, 8, 2, 0, 0] false
      = some (.ok (.Communities [192, 8, 2, 0, 0])) := by
  rfl

/-- Claim C6 as amended. Decoding a type-code-8 attribute succeeds for
every declared length; the multiple-of-four length policy is enforced
by the communities accessor, which fails with BadLength, not Invalid,
exactly when the value length is not a multiple of four. -/
theorem claim_C6 (bytes : Bytes) :
    (∀ (flags aLen : Nat) (four : Bool),
      idx bytes 0 = some flags → 3 ≤ bytes.length →
      (flags &&& FLAG_EXT_LEN > 0 → 4 ≤ bytes.length) →
      attrDeclaredLen bytes = some aLen → idx bytes 1 = some 8 →
      pathAttrFromBytes bytes four = some (.ok (.Communities bytes)))
    ∧ (∀ v : Bytes, attrValue bytes = some v →
        communitiesAccessor bytes
          = some (if v.length % 4 > 0 then .error .BadLength else .ok ⟨v⟩)) := by
  constructor
  · intro flags aLen four h0 h3 hext hlen h8
    unfold pathAttrFromBytes
    rw [if_neg (by omega)]
    simp only [h0, h8, Option.some_bind]
    rw [if_neg (by push_neg; intro hb; have := hext hb; omega)]
    simp only [hlen, Option.some_bind]
    norm_num
  · intro v hv
    unfold communitiesAccessor
    simp only [hv, Option.some_bind]
    split_ifs <;> rfl

/-- Concrete instances discharging the hypotheses of the amended claim
C6 theorem: decode succeeds at declared length 2, and the accessor
returns BadLength for the two-byte value. -/
theorem claim_C6_witness :
    pathAttrFromBytes [192, 8, 2, 0, 0] true
      = some (.ok (.Communities [192, 8, 2, 0, 0]))
    ∧ communitiesAccessor [192, 8, 2, 0, 0] = some (.error .BadLength) := by
  constructor
  · exact (claim_C6 [192, 8, 2, 0, 0]).1 192 2 true rfl (by decide) (by decide) rfl rfl
  · have h := (claim_C6 [192, 8, 2, 0, 0]).2 [0, 0] rfl
    simpa using h

/-- Claim C2. Message framing fails with BadLength outside the 19 to
4096 byte range, Invalid on a wrong marker, BadLength when the declared
big-endian length at offsets 16 and 17 differs from the buffer length,
and otherwise dispatches on the type byte at offset 18 with the five
known types and Invalid for anything else; consequently every
successful decode has declared length equal to the buffer length. -/
theorem claim_C2 (raw : Bytes) (four add : Bool) :
    ((raw.length < 19 ∨ raw.length > 4096) →
      messageFromBytes raw four add = some (.error .BadLength))
    ∧ (19 ≤ raw.length → raw.length ≤ 4096 → raw.take 16 ≠ validBgpMarker →
      messageFromBytes raw four add = some (.error .Invalid))
    ∧ (∀ m0 m1 : Nat, 19 ≤ raw.length → raw.length ≤ 4096 →
      raw.take 16 = validBgpMarker →
      idx raw 16 = some m0 → idx raw 17 = some m1 → be16 m0 m1 ≠ raw.length →
      messageFromBytes raw four add = some (.error .BadLength))
    ∧ (∀ m0 m1 t : Nat, 19 ≤ raw.length → raw.length ≤ 4096 →
      raw.take 16 = validBgpMarker →
      idx raw 16 = some m0 → idx raw 17 = some m1 → idx raw 18 = some t →
      be16 m0 m1 = raw.length →
      messageFromBytes raw four add
        = some (if t = 1 then (openFromBytes raw).map Message.openMessage
          else if t = 2 then (updateFromBytes raw four add).map Message.updateMessage
          else if t = 3 then .ok .notificationMessage
          else if t = 4 then .ok .keepAlive
          else if t = 5 then .ok .refresh
          else .error .Invalid))
    ∧ (∀ (m0 m1 : Nat) (m : Message), idx raw 16 = some m0 → idx raw 17 = some m1 →
      messageFromBytes raw four add = some (.ok m) → be16 m0 m1 = raw.length) := by
  refine ⟨?_, ?_, ?_, ?_, ?_⟩
  · intro h
    unfold messageFromBytes
    rw [if_pos h]
  · intro hlo hhi hm
    unfold messageFromBytes
    rw [if_neg (by omega), if_pos hm]
  · intro m0 m1 hlo hhi hm h16 h17 hne
    unfold messageFromBytes
    rw [if_neg (by omega), if_neg (by simp [hm])]
    rw [idx_drop, idx_drop, idx_drop]
    rw [show 16 + 0 = 16 from rfl, show 16 + 1 = 17 from rfl]
    simp only [h16, h17, Option.some_bind]
    obtain ⟨t, ht⟩ := idx_exists (b := raw) (i := 18) (by omega)
    rw [show (16 : Nat) + 2 = 18 from rfl]
    simp only [ht, Option.some_bind]
    rw [if_pos hne]
  · intro m0 m1 t hlo hhi hm h16 h17 h18 heq
    unfold messageFromBytes
    rw [if_neg (by omega), if_neg (by simp [hm])]
    rw [idx_drop, idx_drop, idx_drop]
    rw [show 16 + 0 = 16 from rfl, show 16 + 1 = 17 from rfl,
      show (16 : Nat) + 2 = 18 from rfl]
    simp only [h16, h17, h18, Option.some_bind]
    rw [if_neg (by omega)]
    split_ifs <;> rfl
  · intro m0 m1 m h16 h17 hok
    by_cases hlen : be16 m0 m1 = raw.length
    · exact hlen
    · exfalso
      unfold messageFromBytes at hok
      by_cases hb : raw.length < 19 ∨ raw.length > 4096
      · rw [if_pos hb] at hok
        simp at hok
      · rw [if_neg hb] at hok
        by_cases hm : raw.take 16 = validBgpMarker
        · rw [if_neg (by simp [hm])] at hok
          rw [idx_drop, idx_drop, idx_drop,
            show 16 + 0 = 16 from rfl, show 16 + 1 = 17 from rfl,
            show (16 : Nat) + 2 = 18 from rfl] at hok
          push_neg at hb
          obtain ⟨t, ht⟩ := idx_exists (b := raw) (i := 18) (by omega)
          simp only [h16, h17, ht, Option.some_bind] at hok
          rw [if_pos hlen] at hok
          simp at hok
        · rw [if_pos hm] at hok
          simp at hok

/-- A valid 19-byte KEEPALIVE frame. -/
def kaInput : Bytes := List.replicate 16 255 ++ [0, 19, 4]

/-- Concrete instances discharging the hypotheses of the claim C2
theorem: dispatch of a KEEPALIVE, the short-buffer and bad-marker and
bad-length rejections, and the length consequence on the successful
decode. -/
theorem claim_C2_witness :
    messageFromBytes kaInput false false = some (.ok .keepAlive)
    ∧ messageFromBytes [1, 2, 3] false false = some (.error .BadLength)
    ∧ messageFromBytes (List.replicate 19 7) false false = some (.error .Invalid)
    ∧ messageFromBytes (List.replicate 16 255 ++ [0, 20, 4]) false false
        = some (.error .BadLength)
    ∧ be16 0 19 = kaInput.length := by
  have hka : messageFromBytes kaInput false false = some (.ok .keepAlive) := by
    have h := (claim_C2 kaInput false false).2.2.2.1 0 19 4 (by decide) (by decide)
      (by decide) rfl rfl rfl (by decide)
    simpa using h
  refine ⟨hka, ?_, ?_, ?_, ?_⟩
  · exact (claim_C2 [1, 2, 3] false false).1 (by decide)
  · exact (claim_C2 (List.replicate 19 7) false false).2.1 (by decide) (by decide)
      (by decide)
  · exact (claim_C2 (List.replicate 16 255 ++ [0, 20, 4]) false false).2.2.1 0 20
      (by decide) (by decide) (by decide) rfl rfl (by decide)
  · exact (claim_C2 kaInput false false).2.2.2.2 0 19 .keepAlive rfl rfl hka

/-- Claim C7. Capability decoding fails with BadLength under two bytes
or when the buffer length differs from the embedded length byte plus
two; fails with Invalid for code 0 and for codes 1, 65 and 69 with a
length other than 4; maps codes 128 to 255 to the Private variant; and
maps any unrecognized remaining code to the Other variant. -/
theorem claim_C7 (bytes : Bytes) (c l : Nat) :
    (bytes.length < 2 → capabilityFromBytes bytes = some (.error .BadLength))
    ∧ (idx bytes 0 = some c → idx bytes 1 = some l → bytes.length ≠ l + 2 →
       capabilityFromBytes bytes = some (.error .BadLength))
    ∧ (idx bytes 0 = some 0 → idx bytes 1 = some l → bytes.length = l + 2 →
       capabilityFromBytes bytes = some (.error .Invalid))
    ∧ ((c = 1 ∨ c = 65 ∨ c = 69) → idx bytes 0 = some c → idx bytes 1 = some l →
       bytes.length = l + 2 → l ≠ 4 →
       capabilityFromBytes bytes = some (.error .Invalid))
    ∧ (128 ≤ c → c ≤ 255 → idx bytes 0 = some c → idx bytes 1 = some l →
       bytes.length = l + 2 →
       capabilityFromBytes bytes = some (.ok (.Private bytes)))
    ∧ (c ∉ ([0, 1, 2, 3, 4, 5, 64, 65, 67, 68, 69, 70] : List Nat) → c < 128 →
       idx bytes 0 = some c → idx bytes 1 = some l → bytes.length = l + 2 →
       capabilityFromBytes bytes = some (.ok (.Other bytes))) := by
  refine ⟨?_, ?_, ?_, ?_, ?_, ?_⟩
  · intro h
    unfold capabilityFromBytes
    rw [if_pos h]
  · intro h0 h1 hne
    have hl := idx_some_lt h1
    unfold capabilityFromBytes
    rw [if_neg (by omega)]
    simp only [h0, h1, Option.some_bind]
    rw [if_pos hne]
  · intro h0 h1 heq
    have hl := idx_some_lt h1
    unfold capabilityFromBytes
    rw [if_neg (by omega)]
    simp only [h0, h1, Option.some_bind]
    rw [if_neg (by omega)]
    norm_num
  · intro hc h0 h1 heq hl4
    have hl := idx_some_lt h1
    unfold capabilityFromBytes
    rw [if_neg (by omega)]
    simp only [h0, h1, Option.some_bind]
    rw [if_neg (by omega)]
    rcases hc with rfl | rfl | rfl <;> norm_num [hl4]
  · intro hge hle h0 h1 heq
    have hl := idx_some_lt h1
    unfold capabilityFromBytes
    rw [if_neg (by omega)]
    simp only [h0, h1, Option.some_bind]
    iterate 13 rw [if_neg (by omega)]
    rw [if_pos ⟨hge, hle⟩]
  · intro hnotin hlt h0 h1 heq
    simp only [List.mem_cons, List.not_mem_nil, or_false, not_or] at hnotin
    obtain ⟨d0, d1, d2, d3, d4, d5, d64, d65, d67, d68, d69, d70⟩ := hnotin
    have hl := idx_some_lt h1
    unfold capabilityFromBytes
    rw [if_neg (by omega)]
    simp only [h0, h1, Option.some_bind]
    rw [if_neg (by omega), if_neg d0, if_neg d1, if_neg d2, if_neg d3, if_neg d4,
      if_neg d5, if_neg d64, if_neg d65, if_neg d67, if_neg d68, if_neg d69,
      if_neg d70, if_neg (by omega)]

/-- Concrete instances discharging the hypotheses of the claim C7
theorem: short buffer, inconsistent length, code 0, code 65 of wrong
length, a private code and an unassigned code. -/
theorem claim_C7_witness :
    capabilityFromBytes [5] = some (.error .BadLength)
    ∧ capabilityFromBytes [2, 1] = some (.error .BadLength)
    ∧ capabilityFromBytes [0, 0] = some (.error .Invalid)
    ∧ capabilityFromBytes [65, 3, 0, 0, 0] = some (.error .Invalid)
    ∧ capabilityFromBytes [200, 0] = some (.ok (.Private [200, 0]))
    ∧ capabilityFromBytes [66, 1, 9] = some (.ok (.Other [66, 1, 9])) := by
  refine ⟨?_, ?_, ?_, ?_, ?_, ?_⟩
  · exact (claim_C7 [5] 5 0).1 (by decide)
  · exact (claim_C7 [2, 1] 2 1).2.1 rfl rfl (by decide)
  · exact (claim_C7 [0, 0] 0 0).2.2.1 rfl rfl (by decide)
  · exact (claim_C7 [65, 3, 0, 0, 0] 65 3).2.2.2.1 (by omega) rfl rfl (by decide)
      (by decide)
  · exact (claim_C7 [200, 0] 200 0).2.2.2.2.1 (by decide) (by decide) rfl rfl
      (by decide)
  · exact (claim_C7 [66, 1, 9] 66 1).2.2.2.2.2 (by decide) (by decide) rfl rfl
      (by decide)

/-- Claim C8. Notification decoding requires at least two bytes and
otherwise reads the code and subcode from the first two bytes and
returns the tagged variant carrying the remaining data bytes; codes 4,
5 and 6 accept any subcode, any pair outside the enumerated table fails
with Invalid, a single-byte input fails with BadLength and the pair of
code 9 and subcode 0 fails with Invalid. -/
theorem claim_C8 (bytes : Bytes) (c s : Nat) :
    (bytes.length < 2 → notificationFromBytes bytes = some (.error .BadLength))
    ∧ (idx bytes 0 = some 4 → 2 ≤ bytes.length →
       notificationFromBytes bytes = some (.ok (.HoldTimerExpired (bytes.drop 2))))
    ∧ (idx bytes 0 = some 5 → 2 ≤ bytes.length →
       notificationFromBytes bytes = some (.ok (.FiniteStateMachineError (bytes.drop 2))))
    ∧ (idx bytes 0 = some 6 → 2 ≤ bytes.length →
       notificationFromBytes bytes = some (.ok (.Cease (bytes.drop 2))))
    ∧ (idx bytes 0 = some c → idx bytes 1 = some s → ¬ notifTable c s →
       notificationFromBytes bytes = some (.error .Invalid))
    ∧ (idx bytes 0 = some c → idx bytes 1 = some s → notifTable c s →
       ∃ n, notificationFromBytes bytes = some (.ok n)
         ∧ notificationData n = bytes.drop 2)
    ∧ notificationFromBytes [9] = some (.error .BadLength)
    ∧ notificationFromBytes [9, 0] = some (.error .Invalid) := by
  refine ⟨?_, ?_, ?_, ?_, ?_, ?_, rfl, rfl⟩
  · intro h
    unfold notificationFromBytes
    rw [if_pos h]
  · intro h0 h2
    obtain ⟨sv, hs⟩ := idx_exists (b := bytes) (i := 1) (by omega)
    unfold notificationFromBytes
    rw [if_neg (by omega)]
    simp only [h0, hs, Option.some_bind]
    norm_num
  · intro h0 h2
    obtain ⟨sv, hs⟩ := idx_exists (b := bytes) (i := 1) (by omega)
    unfold notificationFromBytes
    rw [if_neg (by omega)]
    simp only [h0, hs, Option.some_bind]
    norm_num
  · intro h0 h2
    obtain ⟨sv, hs⟩ := idx_exists (b := bytes) (i := 1) (by omega)
    unfold notificationFromBytes
    rw [if_neg (by omega)]
    simp only [h0, hs, Option.some_bind]
    norm_num
  · intro h0 h1 hnt
    have hl := idx_some_lt h1
    unfold notifTable at hnt
    unfold notificationFromBytes
    rw [if_neg (by omega)]
    simp only [h0, h1, Option.some_bind]
    by_cases hc1 : c = 1
    · subst hc1
      norm_num
      iterate 3 rw [if_neg (by omega)]
    · by_cases hc2 : c = 2
      · subst hc2
        norm_num
        iterate 6 rw [if_neg (by omega)]
      · by_cases hc3 : c = 3
        · subst hc3
          norm_num
          iterate 11 rw [if_neg (by omega)]
        · rw [if_neg hc1, if_neg hc2, if_neg hc3]
          iterate 3 rw [if_neg (by omega)]
  · intro h0 h1 ht
    have hl := idx_some_lt h1
    unfold notificationFromBytes
    rw [if_neg (by omega)]
    simp only [h0, h1, Option.some_bind]
    unfold notifTable at ht
    rcases ht with ⟨rfl, hs1, hs2⟩ | ⟨rfl, hs1, hs2⟩ | ⟨rfl, hs1, hs2⟩ | rfl | rfl | rfl
    · rcases (show s = 1 ∨ s = 2 ∨ s = 3 by omega) with rfl | rfl | rfl
      · exact ⟨.ConnectionNotSynchronised (bytes.drop 2), by norm_num, rfl⟩
      · exact ⟨.BadMessageLength (bytes.drop 2), by norm_num, rfl⟩
      · exact ⟨.BadMessageType (bytes.drop 2), by norm_num, rfl⟩
    · rcases (show s = 1 ∨ s = 2 ∨ s = 3 ∨ s = 4 ∨ s = 5 ∨ s = 6 by omega) with
        rfl | rfl | rfl | rfl | rfl | rfl
      · exact ⟨.UnsupportedVersionNumber (bytes.drop 2), by norm_num, rfl⟩
      · exact ⟨.BadPeerAs (bytes.drop 2), by norm_num, rfl⟩
      · exact ⟨.BadBgpIdentifier (bytes.drop 2), by norm_num, rfl⟩
      · exact ⟨.UnsupportedOptionalParameter (bytes.drop 2), by norm_num, rfl⟩
      · exact ⟨.AuthenticationFailure (bytes.drop 2), by norm_num, rfl⟩
      · exact ⟨.UnacceptableHoldTime (bytes.drop 2), by norm_num, rfl⟩
    · rcases (show s = 1 ∨ s = 2 ∨ s = 3 ∨ s = 4 ∨ s = 5 ∨ s = 6 ∨ s = 7 ∨ s = 8
          ∨ s = 9 ∨ s = 10 ∨ s = 11 by omega) with
        rfl | rfl | rfl | rfl | rfl | rfl | rfl | rfl | rfl | rfl | rfl
      · exact ⟨.MalformedAttributeList (bytes.drop 2), by norm_num, rfl⟩
      · exact ⟨.UnrecognizedWellKnownAttribute (bytes.drop 2), by norm_num, rfl⟩
      · exact ⟨.MissingWellKnownAttribute (bytes.drop 2), by norm_num, rfl⟩
      · exact ⟨.AttributeFlagsError (bytes.drop 2), by norm_num, rfl⟩
      · exact ⟨.AttributeLengthError (bytes.drop 2), by norm_num, rfl⟩
      · exact ⟨.InvalidOriginAttribute (bytes.drop 2), by norm_num, rfl⟩
      · exact ⟨.AsRoutingLoop (bytes.drop 2), by norm_num, rfl⟩
      · exact ⟨.InvalidNextHopAttribute (bytes.drop 2), by norm_num, rfl⟩
      · exact ⟨.OptionalAttributeError (bytes.drop 2), by norm_num, rfl⟩
      · exact ⟨.InvalidNetworkField (bytes.drop 2), by norm_num, rfl⟩
      · exact ⟨.MalformedAsPath (bytes.drop 2), by norm_num, rfl⟩
    · exact ⟨.HoldTimerExpired (bytes.drop 2), by norm_num, rfl⟩
    · exact ⟨.FiniteStateMachineError (bytes.drop 2), by norm_num, rfl⟩
    · exact ⟨.Cease (bytes.drop 2), by norm_num, rfl⟩

/-- Concrete instances discharging the hypotheses of the claim C8
theorem: a subcode-agnostic code 4, a table pair, a pair outside the
table, and the short input. -/
theorem claim_C8_witness :
    notificationFromBytes [4, 77, 1, 2] = some (.ok (.HoldTimerExpired [1, 2]))
    ∧ notificationFromBytes [7, 7] = some (.error .Invalid)
    ∧ (∃ n, notificationFromBytes [3, 5, 8] = some (.ok n)
        ∧ notificationData n = [8])
    ∧ notificationFromBytes [0] = some (.error .BadLength) := by
  refine ⟨?_, ?_, ?_, ?_⟩
  · exact (claim_C8 [4, 77, 1, 2] 4 77).2.1 rfl (by decide)
  · exact (claim_C8 [7, 7] 7 7).2.2.2.2.1 rfl rfl (by unfold notifTable; omega)
  · exact (claim_C8 [3, 5, 8] 3 5).2.2.2.2.2.1 rfl rfl (by unfold notifTable; omega)
  · exact (claim_C8 [0] 0 0).1 (by decide)

/-- Claim C9. A statistics TLV step with enough bytes for its declared
length always yields an Ok element and advances past the TLV with the
sticky flag still clear; an unrecognised type and length pair decodes
to the Unknown variant carrying the opaque value bytes; and the
concrete TLV of type 9, length 11, AFI IPv4, SAFI Unicast and gauge 42
decodes to PerAfiSafiAdjRibInSize of IPv4, Unicast and 42. -/
theorem claim_C9 :
    (∀ (s : StatisticsIterSt) (t0 t1 l0 l1 : Nat), s.error = false →
      idx s.inner 0 = some t0 → idx s.inner 1 = some t1 →
      idx s.inner 2 = some l0 → idx s.inner 3 = some l1 →
      be16 l0 l1 + 4 ≤ s.inner.length →
      statisticsIterNext s
        = some (some (.ok (decodeStat (be16 t0 t1) (be16 l0 l1)
            ((s.inner.drop 4).take (be16 l0 l1))),
          ⟨s.inner.drop (be16 l0 l1 + 4), false⟩)))
    ∧ (∀ (t l : Nat) (slice : Bytes), ¬ recognizedStat t l →
        decodeStat t l slice = .Unknown slice)
    ∧ statisticsIterNext ⟨[0, 9, 0, 11, 0, 1, 1, 0, 0, 0, 0, 0, 0, 0, 42], false⟩
        = some (some (.ok (.PerAfiSafiAdjRibInSize ⟨1⟩ ⟨1⟩ 42), ⟨[], false⟩)) := by
  refine ⟨?_, ?_, rfl⟩
  · intro s t0 t1 l0 l1 herr h0 h1 h2 h3 hle
    unfold statisticsIterNext
    rw [herr]
    simp only [Bool.or_false]
    rw [if_neg (by simp [isEmpty_false_of_lt (idx_some_lt h0)])]
    rw [if_neg (by have := idx_some_lt h3; omega)]
    simp only [h0, h1, h2, h3, Option.some_bind]
    rw [if_neg (by omega)]
  · intro t l slice h
    unfold recognizedStat at h
    unfold decodeStat
    iterate 14 rw [if_neg (by omega)]

/-- Concrete instances discharging the hypotheses of the claim C9
theorem: a TLV of unknown type 99 yields an Ok element, keeps the flag
clear, and decodes to the Unknown variant. -/
theorem claim_C9_witness :
    statisticsIterNext ⟨[0, 99, 0, 0], false⟩
      = some (some (.ok (.Unknown []), ⟨[], false⟩))
    ∧ decodeStat 99 0 [] = .Unknown [] := by
  constructor
  · have h := claim_C9.1 ⟨[0, 99, 0, 0], false⟩ 0 99 0 0 rfl rfl rfl rfl rfl
      (by decide)
    simpa [be16, decodeStat] using h
  · exact claim_C9.2.1 99 0 [] (by decide)

/-- Claim C10. The statistics sequence of a successfully decoded BMP
Statistics Report is independent of the declared stat count: two report
buffers of equal length that agree everywhere except on the four count
bytes at offsets 48 to 51 produce identical stats iterators, because
stats depends only on the bytes from offset 52 on. -/
theorem claim_C10 (b1 b2 : Bytes)
    (hd1 : bmpFromBytes b1 = some (.ok (.StatisticsReportMsg ⟨b1⟩)))
    (hd2 : bmpFromBytes b2 = some (.ok (.StatisticsReportMsg ⟨b2⟩)))
    (hlen : b1.length = b2.length)
    (hagree : ∀ i : Nat, i < 48 ∨ 52 ≤ i → b1.get? i = b2.get? i) :
    stats ⟨b1⟩ = stats ⟨b2⟩ := by
  have hdrop : b1.drop 52 = b2.drop 52 := by
    apply List.ext
    intro n
    rw [List.get?_drop, List.get?_drop]
    exact hagree (52 + n) (Or.inr (by omega))
  unfold stats sliceFrom
  rw [hlen, hdrop]

/-- A 53-byte BMP Statistics Report whose stat-count field at offset 48
is the argument; one trailing byte follows the count. -/
def c10buf (x : Nat) : Bytes :=
  [3, 0, 0, 0, 53, 1] ++ List.replicate 42 0 ++ [x, 0, 0, 0, 0]

/-- Concrete instances discharging the hypotheses of the claim C10
theorem: two decodable reports differing only at offset 48 have equal
stats iterators. -/
theorem claim_C10_witness : stats ⟨c10buf 0⟩ = stats ⟨c10buf 9⟩ := by
  apply claim_C10 (c10buf 0) (c10buf 9) (by rfl) (by rfl) (by rfl)
  intro i hi
  rcases hi with h | h
  · have e : (c10buf 0).take 48 = (c10buf 9).take 48 := by rfl
    rw [← List.get?_take h, ← List.get?_take (l := c10buf 9) h, e]
  · have e : (c10buf 0).drop 52 = (c10buf 9).drop 52 := by rfl
    have g1 := List.get?_drop (c10buf 0) 52 (i - 52)
    have g2 := List.get?_drop (c10buf 9) 52 (i - 52)
    rw [show 52 + (i - 52) = i from by omega] at g1 g2
    rw [← g1, ← g2, e]

end Bgparse
